import Mathlib

/-!
Shallow embedding of the live-tracking backend of
`SIH Backend/src/controllers/liveController.js` together with the pieces of
`src/realtime/socket.js` and `src/utils/redisClient.js` it relies on.

Conventions of the embedding:
* JavaScript numbers are modelled as `JNum`: either a finite rational or a
  collapsed non-finite value (`NaN`, `±Infinity`); `Number.isFinite` is all
  the code under study ever tests.
* JSON body values are modelled by `JVal`; `Number(v)` coercion and JS
  truthiness are spelled out case by case.  String-to-number coercion covers
  plain decimal literals (optional sign, digits, optional fraction), which is
  the input domain relevant here; exotic JS numeric formats (hex, exponent,
  `Infinity` literals) are mapped to non-finite.
* Timestamps are epoch milliseconds (`ℤ`); the code stores
  `new Date().toISOString()` and reads it back with
  `new Date(s).getTime()`, a round trip.
* Redis structures are explicit fields of `HotState`; keys `bus:<id>`,
  `bus:<id>:speeds` and `route:<id>` are represented by their `<id>` part
  (the constant prefixes are injective decorations).
* Redis stores strings.  A value `v` written with `String(v)` is kept as the
  raw `JVal`; reading it back with `Number(...)` is `JVal.readNum` and the
  truthiness of the stored string is `JVal.strTruthy`.
-/

namespace LiveTracking

/-- A JavaScript number as far as `Number.isFinite` can observe it: a finite
rational, or a non-finite value (`NaN` / `±Infinity` collapsed). -/
inductive JNum where
  | fin (q : ℚ)
  | nofin
deriving DecidableEq

/-- `Number.isFinite`. -/
def JNum.isFinite : JNum → Bool
  | .fin _ => true
  | .nofin => false

/-- The JS idiom `Number(x) || 0` (and plain use of a possibly-NaN number
where only the finite case matters): non-finite collapses to `0`. -/
def JNum.orZero : JNum → ℚ
  | .fin q => q
  | .nofin => 0

/-- Finite and non-negative, read off a `JNum`. -/
def JNum.isNonnegFinite (n : JNum) : Bool :=
  n.isFinite && decide (0 ≤ n.orZero)

/-- Digits of a decimal string folded to a natural number. -/
def digitsToNat (s : String) : ℕ :=
  s.foldl (fun n c => n * 10 + (c.toNat - 48)) 0

/-- JS `Number(s)` for a string `s`, restricted to plain decimal literals:
after trimming, the empty string is `0`; an optional sign followed by digits
with at most one decimal point parses to the evident rational; anything else
is `NaN` (`none`). -/
def parseDecimal (s : String) : Option ℚ :=
  let t := s.trim
  if t = "" then some 0
  else
    let (sign, rest) :=
      if t.startsWith "-" then ((-1 : ℚ), t.drop 1)
      else if t.startsWith "+" then ((1 : ℚ), t.drop 1)
      else ((1 : ℚ), t)
    match rest.splitOn "." with
    | [ip] =>
      if ip ≠ "" && ip.all Char.isDigit then some (sign * (digitsToNat ip : ℚ))
      else none
    | [ip, fp] =>
      if (ip ≠ "" || fp ≠ "") && ip.all Char.isDigit && fp.all Char.isDigit then
        some (sign * ((digitsToNat ip : ℚ) + (digitsToNat fp : ℚ) / 10 ^ fp.length))
      else none
    | _ => none

/-- A JSON-ish JavaScript value as delivered by the Express body parser
(`req.body` fields): number, string, boolean, `null`, or absent
(`undefined`). -/
inductive JVal where
  | jnum (q : ℚ)
  | jstr (s : String)
  | jbool (b : Bool)
  | jnull
  | jabsent
deriving DecidableEq

/-- JS `Number(v)` coercion. -/
def JVal.toNumber : JVal → JNum
  | .jnum q => .fin q
  | .jstr s =>
    match parseDecimal s with
    | some q => .fin q
    | none => .nofin
  | .jbool b => .fin (if b then 1 else 0)
  | .jnull => .fin 0
  | .jabsent => .nofin

/-- JS truthiness of a value. -/
def JVal.truthy : JVal → Bool
  | .jnum q => q ≠ 0
  | .jstr s => s ≠ ""
  | .jbool b => b
  | .jnull => false
  | .jabsent => false

/-- `Number(String(v))`: the numeric view of the string Redis stores for a
value `v`.  `String(q)` of a finite number parses back to `q`;
`String(null) = "null"`, `String(undefined) = "undefined"` and
`String(true/false)` are non-numeric strings, hence `NaN`. -/
def JVal.readNum : JVal → JNum
  | .jnum q => .fin q
  | .jstr s => JVal.toNumber (.jstr s)
  | .jbool _ => .nofin
  | .jnull => .nofin
  | .jabsent => .nofin

/-- Truthiness of `String(v)`: the stringification is empty exactly for the
empty string. -/
def JVal.strTruthy : JVal → Bool
  | .jstr s => s ≠ ""
  | _ => true

/-- JS `Math.round`: round half toward positive infinity. -/
def jsRound (x : ℚ) : ℤ := ⌊x + 1 / 2⌋

/-- `liveController.js` lines 10–16.  The ring entries arrive as the strings
Redis returned (`.map(Number)` is `JVal.readNum` on the stored raw values);
entries that are not finite non-negative numbers are dropped; the mean is
rounded to one decimal (`Math.round(m * 10) / 10`). -/
def finiteNonnegSpeeds (speeds : List JVal) : List ℚ :=
  (speeds.map JVal.readNum).filterMap fun n =>
    match n with
    | .fin q => if 0 ≤ q then some q else none
    | .nofin => none

/-- `computeAverageSpeed` of `liveController.js` (lines 10–16). -/
def computeAverageSpeed (speeds : List JVal) : ℚ :=
  let nums := finiteNonnegSpeeds speeds
  if nums.isEmpty then 0
  else (jsRound ((nums.sum / nums.length) * 10) : ℚ) / 10

/-- A route stop as stored in `Route.stops`
(`models/Route.js`: `stopId`, `name`, `latitude`, `longitude`). -/
structure Stop where
  stopId : String
  name : String
  latitude : ℚ
  longitude : ℚ
deriving DecidableEq

/-- One entry of the `etaStops` output (lines 64–72). -/
structure EtaEntry where
  stopId : String
  name : String
  etaMinutes : ℤ
deriving DecidableEq

/-- A `[lng, lat]` coordinate pair of the decoded polyline. -/
abbrev LngLat := ℚ × ℚ

/-- A snapped coordinate as placed in payloads (`{lat, lng}`).  Fields are
`JNum` because on the live-query path they can come from a non-numeric
stored string. -/
structure Coord where
  lat : JNum
  lng : JNum
deriving DecidableEq

/-- Result of `turf.nearestPointOnLine`: the snapped point
(`geometry.coordinates`, in `[lng, lat]` order) and `properties.location`
(distance along the line, km). -/
structure MatchResult where
  ptLng : JNum
  ptLat : JNum
  location : JNum
deriving DecidableEq

/-- The map-matcher is kept abstract: any pure function from a polyline and a
query point to a snapped point with an arc offset.  The claims under study
are parametric in it, and `turf.nearestPointOnLine` is pure.  It is only
applied to polylines with at least two points (on shorter input the real
`turf.lineString` throws, which is outside the modelled domain). -/
abbrev Matcher := List LngLat → JNum × JNum → MatchResult

/-- `computeSnappedAndEtas` of `liveController.js` (lines 49–81), with the
turf matcher abstracted as `mm`.  The `Number(... .location) || 0` reads are
`JNum.orZero`; `Math.max(1, Number(avgSpeedKmh) || 0)` equals
`max 1 avgSpeedKmh` because `avgSpeedKmh` here is a genuine rational and
`0 || 0 = 0`. -/
def computeSnappedAndEtas (mm : Matcher) (coords : Option (List LngLat))
    (stops : Option (List Stop)) (busPoint : JNum × JNum) (avgSpeedKmh : ℚ) :
    Option Coord × List EtaEntry :=
  match coords with
  | none => (none, [])
  | some cs =>
    if cs.isEmpty then (none, [])
    else
      let snapped := mm cs busPoint
      let busDistKm := snapped.location.orZero
      let kmh := max 1 avgSpeedKmh
      let etaStops := (stops.getD []).map fun s =>
        let p := mm cs (.fin s.longitude, .fin s.latitude)
        let stopDistKm := p.location.orZero
        let remainingKm := max (stopDistKm - busDistKm) 0
        let hours := remainingKm / kmh
        ⟨s.stopId, s.name, jsRound (hours * 60)⟩
      (some ⟨snapped.ptLat, snapped.ptLng⟩, etaStops)

/-- A cache hash field abstracted by its `JSON.parse` outcome: the stored
string either fails to parse (`malformed`) or parses to a value of the
expected shape (`parsed`).  `JSON.parse (JSON.stringify v) = v` for the
payloads involved, so writes store `parsed` values. -/
inductive CachedJson (α : Type) where
  | malformed
  | parsed (v : α)
deriving DecidableEq

/-- The `route:<routeId>` hash: fields `polyline` and `stops`, each possibly
absent.  (A present-but-empty string is falsy in the code's
`cached.polyline && cached.stops` guard and also unparseable, so both
readings land in the fallback; it is folded into `malformed`.) -/
structure RouteCacheEntry where
  polyline : Option (CachedJson (List LngLat))
  stops : Option (CachedJson (List Stop))
deriving DecidableEq

/-- The durable `Polyline` document (field used: encoded `geometry`). -/
structure PolyDoc where
  geometry : String
deriving DecidableEq

/-- The durable `Route` document (field used: `stops`, possibly absent —
the code reads `routeDoc.stops || []`). -/
structure RouteDoc where
  stops : Option (List Stop)
deriving DecidableEq

/-- The durable `Bus` document (field used: `routeId`; the code's
`String(busDoc.routeId)` is the identity on this string form). -/
structure BusDoc where
  routeId : String
deriving DecidableEq

/-- The `bus:<busId>` hash written on ingest (lines 100–105).  `lastLat` and
`lastLng` keep the raw body value whose stringification was stored;
`lastUpdated` is the epoch-ms instant whose ISO string was stored; `routeId`
as written. -/
structure BusHash where
  lastLat : JVal
  lastLng : JVal
  lastUpdated : ℤ
  routeId : String
deriving DecidableEq

/-- The Redis hot state: route geometry cache, per-vehicle hash, and the
per-vehicle speed ring (head of the list = newest, as produced by
`lpush`). -/
structure HotState where
  routeCache : String → Option RouteCacheEntry
  busHash : JVal → Option BusHash
  speedRing : JVal → List JVal

/-- The environment of a request: durable-store contents, the polyline
decoder, the abstract matcher, whether the (fallible) cache write succeeds,
and whether Socket.IO has been initialized (`server.js` calls `initSocket`
before `listen`, so in a running server it has).  Durable reads and the
remaining cache operations are modelled as succeeding; their failures only
feed the generic `catch` → 500 path. -/
structure Env where
  busTable : JVal → Option BusDoc
  polyTable : String → Option PolyDoc
  routeTable : String → Option RouteDoc
  decode : String → List (ℚ × ℚ)
  mm : Matcher
  hsetOk : Bool
  ioInited : Bool

/-- Geometry lookup result: `{coords, stops}` with `null` possible. -/
structure GeoOut where
  coords : Option (List LngLat)
  stops : Option (List Stop)

/-- The cache-hit reading of `getRouteGeometryAndStops` (lines 21–28): the
hash must exist, both fields must be present, and both must parse; a parse
failure is swallowed (`catch (_) {}`) and falls through to the durable
load. -/
def cacheHit (cache : String → Option RouteCacheEntry) (routeId : String) :
    Option (List LngLat × List Stop) :=
  match cache routeId with
  | some e =>
    match e.polyline, e.stops with
    | some (.parsed cs), some (.parsed ss) => some (cs, ss)
    | _, _ => none
  | none => none

/-- `getRouteGeometryAndStops` of `liveController.js` (lines 19–46).  On a
usable cache hit, return it.  Otherwise load `Polyline` and `Route`; if
either is missing return `{coords: null, stops: null}`.  Otherwise decode
the encoded polyline (`[[lat,lng],…]`), swap to `[lng,lat]`, take
`routeDoc.stops || []`, write the cache entry (`await hset` — a failure
propagates as a thrown error, `Except.error`), and return. -/
def getRouteGeometryAndStops (env : Env)
    (cache : String → Option RouteCacheEntry) (routeId : String) :
    Except Unit (GeoOut × (String → Option RouteCacheEntry)) :=
  match cacheHit cache routeId with
  | some (cs, ss) => .ok (⟨some cs, some ss⟩, cache)
  | none =>
    match env.polyTable routeId, env.routeTable routeId with
    | some polyDoc, some routeDoc =>
      let latLng := env.decode polyDoc.geometry
      let coords := latLng.map fun p => (p.2, p.1)
      let stops := routeDoc.stops.getD []
      if env.hsetOk then
        .ok (⟨some coords, some stops⟩,
          Function.update cache routeId
            (some ⟨some (.parsed coords), some (.parsed stops)⟩))
      else .error ()
    | _, _ => .ok (⟨none, none⟩, cache)

/-- The composite vehicle payload as a wire object; `success` is the extra
flag the HTTP ingest response carries on top of the broadcast payload
(`none` = field absent). -/
structure WireObj where
  success : Option Bool
  busId : JVal
  routeId : String
  snappedLocation : Option Coord
  avgSpeed : ℚ
  lastUpdated : Option ℤ
  etaStops : List EtaEntry
  status : String
deriving DecidableEq

/-- An HTTP response of the two live handlers. -/
inductive Response where
  | ok (body : WireObj)
  | badRequest (message : String)
  | notFound (message : String)
  | serverError (message : String)
deriving DecidableEq

/-- One Socket.IO emission of `bus:update`: target room (`none` = broadcast
to every client, the `else io.emit(...)` branch) and payload. -/
structure Emit where
  room : Option String
  payload : WireObj
deriving DecidableEq

/-- `emitBusUpdate` of `realtime/socket.js` (lines 33–38): no-op when the
server was never initialized; room `route:<routeId>` when `routeId` is
truthy, global broadcast otherwise. -/
def emitBusUpdate (ioInited : Bool) (routeId : String) (payload : WireObj) :
    List Emit :=
  if !ioInited then []
  else if routeId ≠ "" then [⟨some ("route:" ++ routeId), payload⟩]
  else [⟨none, payload⟩]

/-- The `req.body` of `POST /api/bus/update-location`. -/
structure ReqBody where
  busId : JVal
  lat : JVal
  lng : JVal
  speed : JVal
deriving DecidableEq

/-- The validation guard of `updateBusLocation` (line 88):
`!busId || !Number.isFinite(Number(lat)) || !Number.isFinite(Number(lng))`
negated. -/
def validBody (body : ReqBody) : Bool :=
  body.busId.truthy && (body.lat.toNumber).isFinite && (body.lng.toNumber).isFinite

/-- The accepted path of `updateBusLocation` (lines 95–141), after
validation and the `Bus` lookup succeeded. -/
def ingestAccepted (env : Env) (hot : HotState) (body : ReqBody) (now : ℤ)
    (routeId : String) : Response × HotState × List Emit :=
  -- lines 100–105: hset bus:<busId> {lastLat, lastLng, lastUpdated, routeId}
  let hot1 : HotState :=
    { hot with
      busHash := Function.update hot.busHash body.busId
        (some ⟨body.lat, body.lng, now, routeId⟩) }
  -- lines 107–111: lpush + ltrim 0 2, only for finite speeds
  let hot2 : HotState :=
    if (body.speed.toNumber).isFinite then
      { hot1 with
        speedRing := Function.update hot1.speedRing body.busId
          ((body.speed :: hot1.speedRing body.busId).take 3) }
    else hot1
  -- lines 113–115: lrange 0 2, average
  let speeds := (hot2.speedRing body.busId).take 3
  let avgSpeed := computeAverageSpeed speeds
  -- lines 117–126: geometry, snap, ETAs (a thrown cache-write error lands
  -- in the catch, line 142: 500, with the earlier writes already applied)
  match getRouteGeometryAndStops env hot2.routeCache routeId with
  | .error _ => (.serverError "Server error", hot2, [])
  | .ok (geo, cache2) =>
    let hot3 : HotState := { hot2 with routeCache := cache2 }
    let se := computeSnappedAndEtas env.mm geo.coords geo.stops
      (body.lat.toNumber, body.lng.toNumber) avgSpeed
    -- lines 128–136
    let payload : WireObj :=
      { success := none
        busId := body.busId
        routeId := routeId
        snappedLocation := some (se.1.getD ⟨body.lat.toNumber, body.lng.toNumber⟩)
        avgSpeed := avgSpeed
        lastUpdated := some now
        etaStops := se.2
        status := "online" }
    -- line 139: broadcast; line 141: { success: true, ...payload }
    let emits := emitBusUpdate env.ioInited routeId payload
    (.ok { payload with success := some true }, hot3, emits)

/-- `updateBusLocation` of `liveController.js` (lines 85–146).  Returns the
HTTP response, the hot state after the call, and the list of socket
emissions it performed. -/
def updateBusLocation (env : Env) (hot : HotState) (body : ReqBody) (now : ℤ) :
    Response × HotState × List Emit :=
  if !validBody body then
    (.badRequest "busId, lat, lng are required", hot, [])
  else
    match env.busTable body.busId with
    | none => (.notFound "Bus not found", hot, [])
    | some busDoc => ingestAccepted env hot body now busDoc.routeId

/-- A sequence of ingest calls, each a body with its server arrival time,
folded over the hot state. -/
def ingestSeq (env : Env) (reports : List (ReqBody × ℤ)) (hot : HotState) :
    HotState :=
  reports.foldl (fun h r => (updateBusLocation env h r.1 r.2).2.1) hot

/-- `getLiveBus` of `liveController.js` (lines 149–204).  `busId` comes from
the URL path, hence a string. -/
def getLiveBus (env : Env) (hot : HotState) (busId : String) (now : ℤ) :
    Response × HotState :=
  match env.busTable (.jstr busId) with
  | none => (.notFound "Bus not found", hot)
  | some busDoc =>
    let routeId := busDoc.routeId
    let busState := hot.busHash (.jstr busId)
    let speeds := (hot.speedRing (.jstr busId)).take 3
    let avgSpeed := computeAverageSpeed speeds
    -- lines 162–164: truthiness of the stored strings, then Number(...)
    let lastLat : Option JNum :=
      busState.bind fun h => if h.lastLat.strTruthy then some h.lastLat.readNum else none
    let lastLng : Option JNum :=
      busState.bind fun h => if h.lastLng.strTruthy then some h.lastLng.readNum else none
    let lastUpdated : Option ℤ := busState.map (·.lastUpdated)
    -- lines 166–171: offline unless the last update is at most 90 s old
    let status :=
      match lastUpdated with
      | some t => if now - t ≤ 90 * 1000 then "online" else "offline"
      | none => "offline"
    match getRouteGeometryAndStops env hot.routeCache routeId with
    | .error _ => (.serverError "Server error", hot)
    | .ok (geo, cache2) =>
      let hot2 : HotState := { hot with routeCache := cache2 }
      -- lines 176–187
      let se :=
        match lastLat, lastLng with
        | some la, some ln =>
          computeSnappedAndEtas env.mm geo.coords geo.stops (la, ln) avgSpeed
        | _, _ => (none, [])
      -- lines 189–199
      let payload : WireObj :=
        { success := none
          busId := .jstr busId
          routeId := routeId
          snappedLocation :=
            se.1.orElse fun _ =>
              match lastLat, lastLng with
              | some la, some ln => some ⟨la, ln⟩
              | _, _ => none
          avgSpeed := avgSpeed
          lastUpdated := lastUpdated
          etaStops := se.2
          status := status }
      (.ok payload, hot2)

/-! ## Derived offset notions and the spec-side ETA formula -/

/-- Arc offset of the vehicle: `Number(snapped.properties.location) || 0`
(line 60). -/
def busOffsetKm (mm : Matcher) (cs : List LngLat) (bp : JNum × JNum) : ℚ :=
  (mm cs bp).location.orZero

/-- Arc offset of a stop, matched through the same polyline (lines 65–66). -/
def stopOffsetKm (mm : Matcher) (cs : List LngLat) (s : Stop) : ℚ :=
  (mm cs (.fin s.longitude, .fin s.latitude)).location.orZero

/-- The per-stop ETA as the specification words it:
`round(max(stopOffsetKm − vehicleOffsetKm, 0) / max(avgSpeedKmh, 1.0) × 60)`.
Stated from the spec to be compared against the source's computation. -/
def specEtaMinutes (stopOffKm vehicleOffKm avgSpeedKmh : ℚ) : ℤ :=
  jsRound (max (stopOffKm - vehicleOffKm) 0 / max avgSpeedKmh 1 * 60)

/-! ## Helper lemmas -/

theorem jsRound_mono {x y : ℚ} (h : x ≤ y) : jsRound x ≤ jsRound y :=
  Int.floor_le_floor (by linarith)

theorem jsRound_zero : jsRound 0 = 0 := by
  rw [jsRound, zero_add, Int.floor_eq_zero_iff]
  constructor <;> norm_num

/-- The `etaStops` output is the stop list mapped through the ETA formula. -/
theorem computeSnappedAndEtas_snd (mm : Matcher) (cs : List LngLat)
    (stops : List Stop) (bp : JNum × JNum) (avg : ℚ) (h : cs ≠ []) :
    (computeSnappedAndEtas mm (some cs) (some stops) bp avg).2 =
      stops.map fun s =>
        ⟨s.stopId, s.name,
          specEtaMinutes (stopOffsetKm mm cs s) (busOffsetKm mm cs bp) avg⟩ := by
  rw [computeSnappedAndEtas]
  simp only [List.isEmpty_iff, h, if_false, Option.getD_some]
  refine List.map_congr_left fun s _ => ?_
  simp only [specEtaMinutes, stopOffsetKm, busOffsetKm, max_comm avg 1]

/-- If additionally the stop is not ahead of the vehicle, its ETA is zero. -/
theorem specEtaMinutes_of_passed {so vo : ℚ} (avg : ℚ) (h : so ≤ vo) :
    specEtaMinutes so vo avg = 0 := by
  rw [specEtaMinutes, max_eq_right (by linarith), zero_div, zero_mul, jsRound_zero]

/-- Monotonicity of the ETA formula in the stop offset. -/
theorem specEtaMinutes_mono (vo avg : ℚ) {a b : ℚ} (h : a ≤ b) :
    specEtaMinutes a vo avg ≤ specEtaMinutes b vo avg := by
  refine jsRound_mono ?_
  have hk : (0 : ℚ) < max avg 1 := lt_max_of_lt_right one_pos
  have h1 : max (a - vo) 0 ≤ max (b - vo) 0 :=
    max_le_max (sub_le_sub_right h vo) le_rfl
  have h2 : max (a - vo) 0 / max avg 1 ≤ max (b - vo) 0 / max avg 1 := by
    gcongr
  exact mul_le_mul_of_nonneg_right h2 (by norm_num)

/-! ## Concrete fixtures used by witnesses and counterexamples -/

/-- A concrete pure matcher for witnesses: snaps to the query point itself
and reports the query latitude as the arc offset. -/
def mmEx : Matcher := fun _ p => ⟨p.1, p.2, p.2⟩

/-- A two-point polyline. -/
def csEx : List LngLat := [(77, 28), (78, 29)]

/-- Concrete stops. -/
def stopA : Stop := ⟨"S1", "A", 28, 77⟩

def stopB : Stop := ⟨"S2", "B", 30, 78⟩

/-- The hot state of a cold cache and a never-reported vehicle. -/
def emptyHot : HotState := ⟨fun _ => none, fun _ => none, fun _ => []⟩

/-- An environment with one vehicle `V1` on route `R1`, no durable geometry,
cache writes succeeding and the socket server initialized. -/
def envV1 : Env :=
  { busTable := fun v => if v = .jstr "V1" then some ⟨"R1"⟩ else none
    polyTable := fun _ => none
    routeTable := fun _ => none
    decode := fun _ => []
    mm := mmEx
    hsetOk := true
    ioInited := true }

/-! ## C2, C9, C6 — the pure ETA / averaging layer -/

/-- C2: on a non-degenerate polyline the ETA computation yields exactly one
output entry per input stop, in order, each carrying
`etaMinutes = round(max(stopOffsetKm − vehicleOffsetKm, 0) /
max(avgSpeedKmh, 1.0) × 60)`; a stop at or behind the vehicle offset gets
`etaMinutes = 0`. -/
theorem eta_engine_formula (mm : Matcher) (cs : List LngLat) (stops : List Stop)
    (bp : JNum × JNum) (avg : ℚ) (h2 : 2 ≤ cs.length) :
    ((computeSnappedAndEtas mm (some cs) (some stops) bp avg).2.length = stops.length) ∧
    (∀ (i : ℕ) (s : Stop), stops[i]? = some s →
      (computeSnappedAndEtas mm (some cs) (some stops) bp avg).2[i]? =
        some (⟨s.stopId, s.name,
          specEtaMinutes (stopOffsetKm mm cs s) (busOffsetKm mm cs bp) avg⟩ : EtaEntry)) ∧
    (∀ (i : ℕ) (s : Stop), stops[i]? = some s →
      stopOffsetKm mm cs s ≤ busOffsetKm mm cs bp →
      (computeSnappedAndEtas mm (some cs) (some stops) bp avg).2[i]? =
        some (⟨s.stopId, s.name, 0⟩ : EtaEntry)) := by
  have hne : cs ≠ [] := by
    intro hnil
    rw [hnil] at h2
    simp at h2
  rw [computeSnappedAndEtas_snd mm cs stops bp avg hne]
  refine ⟨List.length_map _ _, fun i s hi => ?_, fun i s hi hpassed => ?_⟩
  · simp [List.getElem?_map, hi]
  · simp [List.getElem?_map, hi, specEtaMinutes_of_passed avg hpassed]

/-- Witness for C2 at a concrete matcher, polyline, stops and speed. -/
theorem eta_engine_formula_witness :
    2 ≤ csEx.length ∧
    (computeSnappedAndEtas mmEx (some csEx) (some [stopA, stopB])
        (.fin 77, .fin 28) 40).2[1]? =
      some (⟨stopB.stopId, stopB.name,
        specEtaMinutes (stopOffsetKm mmEx csEx stopB)
          (busOffsetKm mmEx csEx (.fin 77, .fin 28)) 40⟩ : EtaEntry) ∧
    specEtaMinutes (stopOffsetKm mmEx csEx stopB)
      (busOffsetKm mmEx csEx (.fin 77, .fin 28)) 40 = 3 :=
  ⟨by norm_num [csEx],
   (eta_engine_formula mmEx csEx [stopA, stopB] (.fin 77, .fin 28) 40
      (by norm_num [csEx])).2.1 1 stopB rfl,
   by norm_num [specEtaMinutes, stopOffsetKm, busOffsetKm, mmEx, stopB,
        JNum.orZero, jsRound, max_def]⟩

/-- C9: along the same polyline, a stop with smaller or equal arc offset
never gets a larger ETA, whatever the vehicle offset and average speed. -/
theorem eta_monotonicity (mm : Matcher) (cs : List LngLat) (stops : List Stop)
    (bp : JNum × JNum) (avg : ℚ) (i j : ℕ) (si sj : Stop) (ei ej : EtaEntry)
    (hcs : 2 ≤ cs.length)
    (hi : stops[i]? = some si) (hj : stops[j]? = some sj)
    (hoff : stopOffsetKm mm cs si ≤ stopOffsetKm mm cs sj)
    (hei : (computeSnappedAndEtas mm (some cs) (some stops) bp avg).2[i]? = some ei)
    (hej : (computeSnappedAndEtas mm (some cs) (some stops) bp avg).2[j]? = some ej) :
    ei.etaMinutes ≤ ej.etaMinutes := by
  have hne : cs ≠ [] := by
    intro hnil
    rw [hnil] at hcs
    simp at hcs
  rw [computeSnappedAndEtas_snd mm cs stops bp avg hne] at hei hej
  rw [List.getElem?_map, hi] at hei
  rw [List.getElem?_map, hj] at hej
  have h1 : ei.etaMinutes =
      specEtaMinutes (stopOffsetKm mm cs si) (busOffsetKm mm cs bp) avg := by
    cases hei' : ei
    simp [hei'] at hei
    simp [hei]
  have h2 : ej.etaMinutes =
      specEtaMinutes (stopOffsetKm mm cs sj) (busOffsetKm mm cs bp) avg := by
    cases hej' : ej
    simp [hej'] at hej
    simp [hej]
  rw [h1, h2]
  exact specEtaMinutes_mono _ avg hoff

/-- Witness for C9 at the concrete fixture: stop `A` (offset 28) precedes
stop `B` (offset 30), so its computed ETA entry is no later. -/
theorem eta_monotonicity_witness :
    stopOffsetKm mmEx csEx stopA ≤ stopOffsetKm mmEx csEx stopB ∧
    (⟨stopA.stopId, stopA.name,
        specEtaMinutes (stopOffsetKm mmEx csEx stopA)
          (busOffsetKm mmEx csEx (.fin 77, .fin 28)) 40⟩ : EtaEntry).etaMinutes ≤
      (⟨stopB.stopId, stopB.name,
        specEtaMinutes (stopOffsetKm mmEx csEx stopB)
          (busOffsetKm mmEx csEx (.fin 77, .fin 28)) 40⟩ : EtaEntry).etaMinutes :=
  ⟨by norm_num [stopOffsetKm, mmEx, stopA, stopB, JNum.orZero],
   eta_monotonicity mmEx csEx [stopA, stopB] (.fin 77, .fin 28) 40 0 1
     stopA stopB _ _ (by norm_num [csEx]) rfl rfl
     (by norm_num [stopOffsetKm, mmEx, stopA, stopB, JNum.orZero])
     (by
       rw [computeSnappedAndEtas_snd mmEx csEx [stopA, stopB] (.fin 77, .fin 28) 40
         (by simp only [csEx]; exact List.cons_ne_nil _ _)]
       rfl)
     (by
       rw [computeSnappedAndEtas_snd mmEx csEx [stopA, stopB] (.fin 77, .fin 28) 40
         (by simp only [csEx]; exact List.cons_ne_nil _ _)]
       rfl)⟩

/-- C6: the average speed is the one-decimal-rounded arithmetic mean of the
ring's finite non-negative entries, `0` on the empty ring; the ring
`[0, 90, 60]` yields `50`. -/
theorem computeAverageSpeed_spec (speeds : List JVal) :
    (speeds = [] → computeAverageSpeed speeds = 0) ∧
    (finiteNonnegSpeeds speeds ≠ [] →
      computeAverageSpeed speeds =
        (jsRound ((finiteNonnegSpeeds speeds).sum /
          (finiteNonnegSpeeds speeds).length * 10) : ℚ) / 10) ∧
    computeAverageSpeed [.jnum 0, .jnum 90, .jnum 60] = 50 := by
  refine ⟨fun h => by subst h; rfl, fun h => ?_, ?_⟩
  · rw [computeAverageSpeed]
    simp only [List.isEmpty_iff, h, if_false]
  · norm_num [computeAverageSpeed, finiteNonnegSpeeds, JVal.readNum, jsRound,
      List.filterMap, List.isEmpty, List.cons_ne_nil]

/-- Witness for C6: the scenario ring `[0, 90, 60]` is non-empty and the
formula instance evaluates to `50`. -/
theorem computeAverageSpeed_spec_witness :
    finiteNonnegSpeeds [.jnum 0, .jnum 90, .jnum 60] ≠ [] ∧
    computeAverageSpeed [.jnum 0, .jnum 90, .jnum 60] =
      (jsRound ((finiteNonnegSpeeds [.jnum 0, .jnum 90, .jnum 60]).sum /
        (finiteNonnegSpeeds [.jnum 0, .jnum 90, .jnum 60]).length * 10) : ℚ) / 10 ∧
    computeAverageSpeed [] = 0 :=
  ⟨by norm_num [finiteNonnegSpeeds, JVal.readNum, List.filterMap, List.cons_ne_nil],
   (computeAverageSpeed_spec _).2.1
     (by norm_num [finiteNonnegSpeeds, JVal.readNum, List.filterMap, List.cons_ne_nil]),
   (computeAverageSpeed_spec []).1 rfl⟩

/-! ## C1 — evolution of the speed ring under ingest -/

/-- An ingest body pushes onto vehicle `v`'s ring exactly when it passes
validation, resolves to a known bus, addresses `v`, and carries a speed with
finite `Number` coercion (lines 108–111). -/
def ringAccepted (env : Env) (v : JVal) (body : ReqBody) : Bool :=
  validBody body && (env.busTable body.busId).isSome &&
    decide (body.busId = v) && (body.speed.toNumber).isFinite

/-- One ingest call transforms vehicle `v`'s ring by an `lpush`+`ltrim`
exactly when `ringAccepted`, and leaves it unchanged otherwise. -/
theorem updateBusLocation_speedRing (env : Env) (hot : HotState)
    (body : ReqBody) (now : ℤ) (v : JVal) :
    (updateBusLocation env hot body now).2.1.speedRing v =
      (if ringAccepted env v body then (body.speed :: hot.speedRing v).take 3
       else hot.speedRing v) := by
  rw [updateBusLocation, ringAccepted]
  by_cases hval : validBody body
  · simp only [hval, Bool.not_true, Bool.false_eq_true, if_false, Bool.true_and]
    cases hbus : env.busTable body.busId with
    | none => simp
    | some d =>
      simp only [Option.isSome_some, Bool.true_and, ingestAccepted]
      by_cases hfin : (body.speed.toNumber).isFinite
      · simp only [hfin, if_true, Bool.and_true]
        by_cases hv : body.busId = v
        · subst hv
          cases hgeo : getRouteGeometryAndStops env hot.routeCache d.routeId <;>
            simp [hgeo, Function.update_same]
        · cases hgeo : getRouteGeometryAndStops env hot.routeCache d.routeId <;>
            simp [hgeo, hv, Function.update_noteq (Ne.symm hv)]
      · simp only [hfin, Bool.and_false, if_false]
        cases hgeo : getRouteGeometryAndStops env hot.routeCache d.routeId <;>
          simp [hgeo, hfin]
  · simp [hval]

/-- One accepted ingest call (valid body, known bus) always rewrites the
`bus:<busId>` hash to the new position and timestamp, whatever the speed. -/
theorem updateBusLocation_busHash (env : Env) (hot : HotState)
    (body : ReqBody) (now : ℤ) (d : BusDoc)
    (hval : validBody body = true) (hbus : env.busTable body.busId = some d) :
    (updateBusLocation env hot body now).2.1.busHash body.busId =
      some ⟨body.lat, body.lng, now, d.routeId⟩ := by
  rw [updateBusLocation]
  simp only [hval, Bool.not_true, Bool.false_eq_true, if_false]
  rw [hbus]
  simp only [ingestAccepted]
  by_cases hfin : (body.speed.toNumber).isFinite <;>
    simp only [hfin, if_true, Bool.false_eq_true, if_false] <;>
    cases hgeo : getRouteGeometryAndStops env hot.routeCache d.routeId <;>
    simp [hgeo, Function.update_same]

/-- Folding `lpush`+`ltrim 0 2` over a list of pushed values. -/
def ringAfter (pushes : List JVal) (r : List JVal) : List JVal :=
  pushes.foldl (fun acc s => (s :: acc).take 3) r

theorem ringAfter_take : ∀ (P : List JVal) (l : List JVal),
    ringAfter P (l.take 3) = (P.reverse ++ l).take 3 := by
  intro P
  induction P with
  | nil => intro l; simp [ringAfter]
  | cons s P ih =>
    intro l
    have hstep : (s :: l.take 3).take 3 = (s :: l).take 3 := by
      simp [List.take_take]
    calc ringAfter (s :: P) (l.take 3)
        = ringAfter P ((s :: l.take 3).take 3) := rfl
      _ = ringAfter P ((s :: l).take 3) := by rw [hstep]
      _ = (P.reverse ++ (s :: l)).take 3 := ih (s :: l)
      _ = ((s :: P).reverse ++ l).take 3 := by simp

/-- The ring of vehicle `v` after a sequence of ingest calls is the fold of
the accepted pushes over the initial ring. -/
theorem ingestSeq_speedRing (env : Env) (v : JVal) :
    ∀ (rs : List (ReqBody × ℤ)) (hot : HotState),
      (ingestSeq env rs hot).speedRing v =
        ringAfter ((rs.filter fun r => ringAccepted env v r.1).map fun r => r.1.speed)
          (hot.speedRing v) := by
  intro rs
  induction rs with
  | nil => intro hot; rfl
  | cons r rs ih =>
    intro hot
    have hstep := updateBusLocation_speedRing env hot r.1 r.2 v
    rw [ingestSeq, List.foldl_cons, ← ingestSeq, ih, hstep, List.filter_cons]
    by_cases hacc : ringAccepted env v r.1
    · simp only [hacc, if_true, List.map_cons]
      rfl
    · simp only [hacc, Bool.false_eq_true, if_false]

/-- C1 (amended): starting from an empty ring, after any sequence of ingest
calls the ring of a vehicle holds the most recent accepted speeds —
newest-first, at most three, every entry with finite `Number` coercion
(negative finite speeds are *not* filtered out); a speed whose coercion is
not finite is omitted while `lastLat`/`lastLng`/`lastUpdated` are still
rewritten by every accepted call. -/
theorem speed_ring_bound (env : Env) (hot : HotState) (v : JVal)
    (rs : List (ReqBody × ℤ)) (h0 : hot.speedRing v = []) :
    ((ingestSeq env rs hot).speedRing v =
      ((rs.filter fun r => ringAccepted env v r.1).map fun r => r.1.speed).reverse.take 3) ∧
    ((ingestSeq env rs hot).speedRing v).length ≤ 3 ∧
    (∀ x ∈ (ingestSeq env rs hot).speedRing v, x.toNumber.isFinite = true) ∧
    (∀ (h : HotState) (body : ReqBody) (t : ℤ) (d : BusDoc),
      validBody body = true → env.busTable body.busId = some d →
      (updateBusLocation env h body t).2.1.busHash body.busId =
        some ⟨body.lat, body.lng, t, d.routeId⟩) := by
  have hclosed : (ingestSeq env rs hot).speedRing v =
      ((rs.filter fun r => ringAccepted env v r.1).map fun r => r.1.speed).reverse.take 3 := by
    rw [ingestSeq_speedRing env v rs hot, h0]
    have : ([] : List JVal) = ([] : List JVal).take 3 := rfl
    rw [this, ringAfter_take]
    simp
  refine ⟨hclosed, ?_, ?_, fun h body t d hval hbus =>
    updateBusLocation_busHash env h body t d hval hbus⟩
  · rw [hclosed]
    exact List.length_take_le 3 _
  · intro x hx
    rw [hclosed] at hx
    have hx' := List.mem_reverse.mp (List.take_subset 3 _ hx)
    obtain ⟨r, hr, hrx⟩ := List.mem_map.mp hx'
    have hacc := List.of_mem_filter hr
    rw [ringAccepted] at hacc
    simp only [Bool.and_eq_true] at hacc
    rw [← hrx]
    exact hacc.2

/-- A concrete two-report run: one finite speed, then a non-finite one. -/
def rsEx : List (ReqBody × ℤ) :=
  [(⟨.jstr "V1", .jnum 1, .jnum 2, .jnum 30⟩, 0),
   (⟨.jstr "V1", .jnum 3, .jnum 4, .jabsent⟩, 1)]

/-- Witness for C1 at a concrete environment and report sequence. -/
theorem speed_ring_bound_witness :
    emptyHot.speedRing (.jstr "V1") = [] ∧
    (ingestSeq envV1 rsEx emptyHot).speedRing (.jstr "V1") =
      ((rsEx.filter fun r => ringAccepted envV1 (.jstr "V1") r.1).map
        fun r => r.1.speed).reverse.take 3 ∧
    ((ingestSeq envV1 rsEx emptyHot).speedRing (.jstr "V1")).length ≤ 3 :=
  ⟨rfl, (speed_ring_bound envV1 emptyHot (.jstr "V1") rsEx rfl).1,
   (speed_ring_bound envV1 emptyHot (.jstr "V1") rsEx rfl).2.1⟩

/-- Counterexample to C1 as stated: a report with (finite) speed `-5` passes
the code's `Number.isFinite` guard, so the ring ends up holding an entry
that is *not* a non-negative number. -/
theorem speed_ring_negative_entry :
    (ingestSeq envV1 [(⟨.jstr "V1", .jnum 1, .jnum 2, .jnum (-5)⟩, 0)]
        emptyHot).speedRing (.jstr "V1") = [.jnum (-5)] ∧
    (JVal.jnum (-5)).readNum.isNonnegFinite = false := by
  constructor
  · rfl
  · rfl

/-! ## C4 — broadcast coverage -/

/-- C4 (amended): every 2xx ingest response — with the socket server
initialized and a non-empty `routeId`, as in a running deployment —
corresponds to exactly one `bus:update` emission to room `route:<routeId>`,
whose payload is the response body *minus* the `success: true` flag (the
HTTP body carries that extra field, so the two objects are not equal). -/
theorem broadcast_coverage (env : Env) (hot : HotState) (body : ReqBody)
    (now : ℤ) (b : WireObj)
    (hio : env.ioInited = true)
    (hok : (updateBusLocation env hot body now).1 = .ok b)
    (hroute : b.routeId ≠ "") :
    (updateBusLocation env hot body now).2.2 =
      [⟨some ("route:" ++ b.routeId), { b with success := none }⟩] := by
  rw [updateBusLocation] at hok ⊢
  by_cases hval : validBody body
  · simp only [hval, Bool.not_true, Bool.false_eq_true, if_false] at hok ⊢
    cases hbus : env.busTable body.busId with
    | none =>
      rw [hbus] at hok
      exact absurd hok (by simp)
    | some d =>
      rw [hbus] at hok
      simp only [ingestAccepted] at hok ⊢
      by_cases hfin : (body.speed.toNumber).isFinite <;>
        simp only [hfin, if_true, Bool.false_eq_true, if_false] at hok ⊢ <;>
        cases hgeo : getRouteGeometryAndStops env hot.routeCache d.routeId <;>
        rw [hgeo] at hok <;>
        first
        | exact Response.noConfusion hok
        | (simp only [Response.ok.injEq] at hok
           subst hok
           simp [emitBusUpdate, hio, hroute])
  · simp only [hval, Bool.not_true, Bool.false_eq_true, if_true] at hok
    exact absurd hok (by simp)

/-- An ingest body with no usable speed (ring untouched, average 0). -/
def bodyNoSpeed : ReqBody := ⟨.jstr "V1", .jnum 1, .jnum 2, .jabsent⟩

/-- The payload `envV1` emits for `bodyNoSpeed` at time 0. -/
def emittedV1 : WireObj :=
  ⟨none, .jstr "V1", "R1", some ⟨.fin 1, .fin 2⟩, 0, some 0, [], "online"⟩

/-- The corresponding HTTP 200 body: the same object plus `success: true`. -/
def okBodyV1 : WireObj := { emittedV1 with success := some true }

/-- Witness for C4 at the concrete ingest. -/
theorem broadcast_coverage_witness :
    envV1.ioInited = true ∧
    (updateBusLocation envV1 emptyHot bodyNoSpeed 0).1 = .ok okBodyV1 ∧
    (updateBusLocation envV1 emptyHot bodyNoSpeed 0).2.2 =
      [⟨some ("route:" ++ okBodyV1.routeId), { okBodyV1 with success := none }⟩] :=
  ⟨rfl, rfl,
   broadcast_coverage envV1 emptyHot bodyNoSpeed 0 okBodyV1 rfl rfl (by decide)⟩

/-- Counterexample to C4 as stated: the emitted payload is *not* equal to
the HTTP response body — the body carries the extra `success: true` flag. -/
theorem broadcast_payload_ne_response_body :
    (updateBusLocation envV1 emptyHot bodyNoSpeed 0).1 = .ok okBodyV1 ∧
    (updateBusLocation envV1 emptyHot bodyNoSpeed 0).2.2 =
      [⟨some ("route:" ++ "R1"), emittedV1⟩] ∧
    emittedV1 ≠ okBodyV1 :=
  ⟨rfl, rfl, by decide⟩

/-! ## C7 — ingest error codes -/

/-- The validation guard fails exactly when `busId` is falsy (absent, null,
empty string, zero or `false`) or one of the coordinates has no finite
`Number` coercion. -/
theorem validBody_eq_false_iff (body : ReqBody) :
    validBody body = false ↔
      (body.busId.truthy = false ∨ (body.lat.toNumber).isFinite = false ∨
       (body.lng.toNumber).isFinite = false) := by
  rw [validBody]
  cases body.busId.truthy <;> cases (body.lat.toNumber).isFinite <;>
    cases (body.lng.toNumber).isFinite <;> simp

/-- Exhaustive shape analysis of the ingest response. -/
theorem updateBusLocation_cases (env : Env) (hot : HotState) (body : ReqBody)
    (now : ℤ) :
    (validBody body = false ∧
      updateBusLocation env hot body now =
        (.badRequest "busId, lat, lng are required", hot, [])) ∨
    (validBody body = true ∧ env.busTable body.busId = none ∧
      updateBusLocation env hot body now = (.notFound "Bus not found", hot, [])) ∨
    (validBody body = true ∧ (∃ d, env.busTable body.busId = some d) ∧
      ((∃ m, (updateBusLocation env hot body now).1 = .serverError m) ∨
       (∃ b, (updateBusLocation env hot body now).1 = .ok b))) := by
  by_cases hval : validBody body
  · right
    cases hbus : env.busTable body.busId with
    | none =>
      left
      refine ⟨hval, rfl, ?_⟩
      rw [updateBusLocation]
      simp [hval, hbus]
    | some d =>
      right
      refine ⟨hval, ⟨d, rfl⟩, ?_⟩
      rw [updateBusLocation]
      simp only [hval, Bool.not_true, Bool.false_eq_true, if_false, hbus]
      simp only [ingestAccepted]
      by_cases hfin : (body.speed.toNumber).isFinite <;>
        simp only [hfin, if_true, Bool.false_eq_true, if_false] <;>
        cases hgeo : getRouteGeometryAndStops env hot.routeCache d.routeId <;>
        simp
  · left
    refine ⟨by simpa using hval, ?_⟩
    rw [updateBusLocation]
    simp [hval]

/-- C7: ingest responds 400 exactly when `busId` is missing (falsy) or
`lat`/`lng` do not coerce to finite numbers; it responds 404 exactly when
the body is valid but `busId` resolves to no known bus; and in the 404 case
the hot state is untouched and nothing is broadcast. -/
theorem ingest_error_codes (env : Env) (hot : HotState) (body : ReqBody)
    (now : ℤ) :
    ((∃ m, (updateBusLocation env hot body now).1 = .badRequest m) ↔
      (body.busId.truthy = false ∨ (body.lat.toNumber).isFinite = false ∨
       (body.lng.toNumber).isFinite = false)) ∧
    ((∃ m, (updateBusLocation env hot body now).1 = .notFound m) ↔
      (validBody body = true ∧ env.busTable body.busId = none)) ∧
    (validBody body = true → env.busTable body.busId = none →
      updateBusLocation env hot body now = (.notFound "Bus not found", hot, [])) := by
  rcases updateBusLocation_cases env hot body now with
    ⟨hval, heq⟩ | ⟨hval, hbus, heq⟩ | ⟨hval, ⟨d, hbus⟩, hshape⟩
  · rw [← validBody_eq_false_iff]
    refine ⟨⟨fun _ => hval, fun _ => ⟨_, by rw [heq]⟩⟩, ?_, ?_⟩
    · constructor
      · rintro ⟨m, hm⟩
        rw [heq] at hm
        exact absurd hm (by simp)
      · rintro ⟨hv, _⟩
        rw [hval] at hv
        exact absurd hv (by simp)
    · intro hv
      rw [hval] at hv
      exact absurd hv (by simp)
  · refine ⟨?_, ?_, fun _ _ => heq⟩
    · constructor
      · rintro ⟨m, hm⟩
        rw [heq] at hm
        exact absurd hm (by simp)
      · intro hcon
        rw [← validBody_eq_false_iff] at hcon
        rw [hval] at hcon
        exact absurd hcon (by simp)
    · exact ⟨fun _ => ⟨hval, hbus⟩, fun _ => ⟨_, by rw [heq]⟩⟩
  · have hne400 : ¬∃ m, (updateBusLocation env hot body now).1 = .badRequest m := by
      rintro ⟨m, hm⟩
      rcases hshape with ⟨m', hm'⟩ | ⟨b, hb⟩
      · rw [hm] at hm'
        exact absurd hm' (by simp)
      · rw [hm] at hb
        exact absurd hb (by simp)
    have hne404 : ¬∃ m, (updateBusLocation env hot body now).1 = .notFound m := by
      rintro ⟨m, hm⟩
      rcases hshape with ⟨m', hm'⟩ | ⟨b, hb⟩
      · rw [hm] at hm'
        exact absurd hm' (by simp)
      · rw [hm] at hb
        exact absurd hb (by simp)
    refine ⟨?_, ?_, ?_⟩
    · constructor
      · intro h
        exact absurd h hne400
      · intro hcon
        rw [← validBody_eq_false_iff, hval] at hcon
        exact absurd hcon (by simp)
    · constructor
      · intro h
        exact absurd h hne404
      · rintro ⟨_, hnone⟩
        rw [hnone] at hbus
        exact absurd hbus (by simp)
    · intro _ hnone
      rw [hnone] at hbus
      exact absurd hbus (by simp)

/-- Witness for C7: an unknown busId with a valid body yields a 404 with no
state change and no broadcast. -/
theorem ingest_error_codes_witness :
    validBody ⟨.jstr "GHOST", .jnum 1, .jnum 2, .jnum 10⟩ = true ∧
    envV1.busTable (JVal.jstr "GHOST") = none ∧
    updateBusLocation envV1 emptyHot ⟨.jstr "GHOST", .jnum 1, .jnum 2, .jnum 10⟩ 0 =
      (.notFound "Bus not found", emptyHot, []) :=
  ⟨rfl, rfl,
   (ingest_error_codes envV1 emptyHot ⟨.jstr "GHOST", .jnum 1, .jnum 2, .jnum 10⟩ 0).2.2
     rfl rfl⟩

/-! ## C3, C8 — the live-query path -/

/-- The `status` field of a 200 response, `none` on any error response. -/
def Response.statusOf : Response → Option String
  | .ok b => some b.status
  | _ => none

/-- C3: on the live-query path for a known bus (with the geometry lookup not
throwing), the returned status is `online` iff the stored last update is at
most 90 000 ms old, and `offline` when no hash (hence no `lastUpdated`) is
stored. -/
theorem liveness_boundary (env : Env) (hot : HotState) (busId : String)
    (now : ℤ) (d : BusDoc) (h : BusHash)
    (hbus : env.busTable (.jstr busId) = some d)
    (hgeo : ∃ out, getRouteGeometryAndStops env hot.routeCache d.routeId = .ok out) :
    (hot.busHash (.jstr busId) = some h →
      (((getLiveBus env hot busId now).1.statusOf = some "online") ↔
        now - h.lastUpdated ≤ 90 * 1000)) ∧
    (hot.busHash (.jstr busId) = none →
      (getLiveBus env hot busId now).1.statusOf = some "offline") := by
  obtain ⟨out, hout⟩ := hgeo
  rw [getLiveBus, hbus]
  constructor
  · intro hh
    simp only [hh, hout]
    by_cases ht : now - h.lastUpdated ≤ 90 * 1000 <;>
      simp [Response.statusOf, ht]
  · intro hh
    simp only [hh, hout]
    simp [Response.statusOf]

/-- A hot state in which `V1` has reported once at t = 1000 ms. -/
def hotReported : HotState :=
  { emptyHot with
    busHash := fun v =>
      if v = .jstr "V1" then some ⟨.jnum 1, .jnum 2, 1000, "R1"⟩ else none }

/-- Witness for C3 at a concrete stored hash: a query 0 ms after the report
is classified online. -/
theorem liveness_boundary_witness :
    hotReported.busHash (.jstr "V1") = some ⟨.jnum 1, .jnum 2, 1000, "R1"⟩ ∧
    (((getLiveBus envV1 hotReported "V1" 1000).1.statusOf = some "online") ↔
      (1000 : ℤ) - 1000 ≤ 90 * 1000) ∧
    (1000 : ℤ) - 1000 ≤ 90 * 1000 :=
  ⟨rfl,
   (liveness_boundary envV1 hotReported "V1" 1000 ⟨"R1"⟩
      ⟨.jnum 1, .jnum 2, 1000, "R1"⟩ rfl ⟨_, rfl⟩).1 rfl,
   by decide⟩

/-- C8: a live query for a known vehicle that has never reported (no hash,
empty ring) succeeds with the degraded composite: `snappedLocation: null`,
`etaStops: []`, `avgSpeed: 0`, `status: "offline"`, `lastUpdated: null`. -/
theorem live_never_reported (env : Env) (hot : HotState) (busId : String)
    (now : ℤ) (d : BusDoc)
    (hbus : env.busTable (.jstr busId) = some d)
    (hhash : hot.busHash (.jstr busId) = none)
    (hring : hot.speedRing (.jstr busId) = [])
    (hgeo : ∃ out, getRouteGeometryAndStops env hot.routeCache d.routeId = .ok out) :
    (getLiveBus env hot busId now).1 =
      .ok { success := none, busId := .jstr busId, routeId := d.routeId,
            snappedLocation := none, avgSpeed := 0, lastUpdated := none,
            etaStops := [], status := "offline" } := by
  obtain ⟨out, hout⟩ := hgeo
  rw [getLiveBus, hbus]
  simp [hhash, hring, hout, computeAverageSpeed, finiteNonnegSpeeds,
    Option.orElse]

/-- Witness for C8: querying `V1` before any report. -/
theorem live_never_reported_witness :
    envV1.busTable (.jstr "V1") = some ⟨"R1"⟩ ∧
    emptyHot.busHash (.jstr "V1") = none ∧
    emptyHot.speedRing (.jstr "V1") = [] ∧
    (getLiveBus envV1 emptyHot "V1" 5).1 =
      .ok { success := none, busId := .jstr "V1", routeId := "R1",
            snappedLocation := none, avgSpeed := 0, lastUpdated := none,
            etaStops := [], status := "offline" } :=
  ⟨rfl, rfl, rfl,
   live_never_reported envV1 emptyHot "V1" 5 ⟨"R1"⟩ rfl rfl rfl ⟨_, rfl⟩⟩

/-! ## C5, C10 — geometry cache miss, corruption, and write failure -/

/-- A corrupt or incomplete cache entry produces no usable cache hit. -/
theorem cacheHit_eq_none_of_corrupt (cache : String → Option RouteCacheEntry)
    (rid : String) (e : RouteCacheEntry)
    (hentry : cache rid = some e)
    (hbad : e.polyline = none ∨ e.stops = none ∨
      e.polyline = some .malformed ∨ e.stops = some .malformed) :
    cacheHit cache rid = none := by
  rw [cacheHit, hentry]
  obtain ⟨pl, st⟩ := e
  cases pl with
  | none => rfl
  | some c1 =>
    cases c1 with
    | malformed =>
      cases st with
      | none => rfl
      | some c2 => cases c2 <;> rfl
    | parsed cs =>
      cases st with
      | none => rfl
      | some c2 =>
        cases c2 with
        | malformed => rfl
        | parsed ss =>
          rcases hbad with hb | hb | hb | hb <;> exact absurd hb (by simp)

/-- C5 (amended): the cache write on the fallback path is *not* best-effort:
when the cache misses, both durable documents load, and the cache write
fails, `getRouteGeometryAndStops` throws (the computed geometry is **not**
returned), and the ingest handler turns that into a 500 with no broadcast. -/
theorem cache_write_failure_propagates (env : Env) (hw : env.hsetOk = false) :
    (∀ (cache : String → Option RouteCacheEntry) (rid : String)
      (pd : PolyDoc) (rd : RouteDoc),
      cacheHit cache rid = none →
      env.polyTable rid = some pd → env.routeTable rid = some rd →
      getRouteGeometryAndStops env cache rid = .error ()) ∧
    (∀ (hot : HotState) (body : ReqBody) (now : ℤ) (d : BusDoc)
      (pd : PolyDoc) (rd : RouteDoc),
      validBody body = true →
      env.busTable body.busId = some d →
      cacheHit hot.routeCache d.routeId = none →
      env.polyTable d.routeId = some pd → env.routeTable d.routeId = some rd →
      ((updateBusLocation env hot body now).1 = .serverError "Server error" ∧
       (updateBusLocation env hot body now).2.2 = [])) := by
  have hcore : ∀ (cache : String → Option RouteCacheEntry) (rid : String)
      (pd : PolyDoc) (rd : RouteDoc),
      cacheHit cache rid = none →
      env.polyTable rid = some pd → env.routeTable rid = some rd →
      getRouteGeometryAndStops env cache rid = .error () := by
    intro cache rid pd rd hmiss hp hr
    rw [getRouteGeometryAndStops, hmiss, hp, hr, hw]
    simp
  refine ⟨hcore, fun hot body now d pd rd hval hbus hmiss hp hr => ?_⟩
  have hgeo := hcore hot.routeCache d.routeId pd rd hmiss hp hr
  rw [updateBusLocation]
  simp only [hval, Bool.not_true, Bool.false_eq_true, if_false, hbus]
  simp only [ingestAccepted]
  by_cases hfin : (body.speed.toNumber).isFinite <;>
    simp only [hfin, if_true, Bool.false_eq_true, if_false, hgeo] <;>
    exact ⟨trivial, trivial⟩

/-- An environment whose durable store holds a polyline and route for `R1`
but whose cache write fails. -/
def envWriteFail : Env :=
  { envV1 with
    polyTable := fun rid => if rid = "R1" then some ⟨"encoded"⟩ else none
    routeTable := fun rid => if rid = "R1" then some ⟨some [stopA, stopB]⟩ else none
    decode := fun _ => [(28, 77), (29, 78)]
    hsetOk := false }

/-- Witness for (amended) C5 at the concrete environment. -/
theorem cache_write_failure_witness :
    envWriteFail.hsetOk = false ∧
    cacheHit emptyHot.routeCache "R1" = none ∧
    getRouteGeometryAndStops envWriteFail emptyHot.routeCache "R1" = .error () :=
  ⟨rfl, rfl,
   (cache_write_failure_propagates envWriteFail rfl).1 emptyHot.routeCache "R1"
     ⟨"encoded"⟩ ⟨some [stopA, stopB]⟩ rfl rfl rfl⟩

/-- Counterexample to C5 as stated: with the durable documents present and
decodable but the cache write failing, the geometry is *not* returned — the
helper throws and a full ingest against this environment answers 500. -/
theorem cache_write_failure_fails_call :
    getRouteGeometryAndStops envWriteFail emptyHot.routeCache "R1" = .error () ∧
    (updateBusLocation envWriteFail emptyHot bodyNoSpeed 0).1 =
      .serverError "Server error" ∧
    (updateBusLocation envWriteFail emptyHot bodyNoSpeed 0).2.2 = [] :=
  ⟨rfl, rfl, rfl⟩

/-- C10: when the cached `route:<routeId>` hash exists but a field is
missing or fails to parse, and the durable documents are present (and the
rewrite succeeds), `getRouteGeometryAndStops` does not fail and does not
return the corrupt entry: it decodes the durable polyline, rewrites the
cache entry, and returns the recomputed geometry. -/
theorem cache_corrupt_falls_back (env : Env)
    (cache : String → Option RouteCacheEntry) (rid : String)
    (e : RouteCacheEntry) (pd : PolyDoc) (rd : RouteDoc)
    (hentry : cache rid = some e)
    (hbad : e.polyline = none ∨ e.stops = none ∨
      e.polyline = some .malformed ∨ e.stops = some .malformed)
    (hp : env.polyTable rid = some pd) (hr : env.routeTable rid = some rd)
    (hw : env.hsetOk = true) :
    getRouteGeometryAndStops env cache rid =
      .ok (⟨some ((env.decode pd.geometry).map fun p => (p.2, p.1)),
            some (rd.stops.getD [])⟩,
        Function.update cache rid
          (some ⟨some (.parsed ((env.decode pd.geometry).map fun p => (p.2, p.1))),
                 some (.parsed (rd.stops.getD []))⟩)) := by
  rw [getRouteGeometryAndStops, cacheHit_eq_none_of_corrupt cache rid e hentry hbad,
    hp, hr, hw]
  simp

/-- A hot state whose `route:R1` entry has a malformed `stops` field. -/
def hotCorrupt : HotState :=
  { emptyHot with
    routeCache := fun rid =>
      if rid = "R1" then some ⟨some (.parsed [(1, 1)]), some .malformed⟩ else none }

/-- The environment of `envWriteFail` with the cache write succeeding. -/
def envWriteOk : Env := { envWriteFail with hsetOk := true }

/-- Witness for C10: a malformed `stops` field is ignored, the durable
polyline is decoded and swapped to `[lng, lat]`, and the entry is
rewritten. -/
theorem cache_corrupt_falls_back_witness :
    hotCorrupt.routeCache "R1" =
      some ⟨some (.parsed [(1, 1)]), some .malformed⟩ ∧
    getRouteGeometryAndStops envWriteOk hotCorrupt.routeCache "R1" =
      .ok (⟨some ((envWriteOk.decode "encoded").map fun p => (p.2, p.1)),
            some ([stopA, stopB] : List Stop)⟩,
        Function.update hotCorrupt.routeCache "R1"
          (some ⟨some (.parsed ((envWriteOk.decode "encoded").map fun p => (p.2, p.1))),
                 some (.parsed ([stopA, stopB] : List Stop))⟩)) :=
  ⟨rfl,
   cache_corrupt_falls_back envWriteOk hotCorrupt.routeCache "R1"
     ⟨some (.parsed [(1, 1)]), some .malformed⟩ ⟨"encoded"⟩ ⟨some [stopA, stopB]⟩
     rfl (Or.inr (Or.inr (Or.inr rfl))) rfl rfl rfl⟩

end LiveTracking
